import Mathlib

/-!
Verification of the KingsHacks payment-authorization risk engine.

Shallow embedding of `src/backend/risk.py` (fact extractor and risk scorer),
the database operations of `src/backend/db.py` used by the payment pipeline,
and the endpoints `payment_authorize` / `payment_challenge_verify` of
`src/backend/main.py`.  Python `float` arithmetic is modelled over `ℚ`
(all literals used by the scorer are exact decimals), machine-level string
semantics (`str.strip`, `str.lower`, `str.upper`) are modelled with the
corresponding ASCII-faithful Lean `String` operations, and JSON values are
modelled by the inductive `JVal`, with the stdlib `json.loads` parser an
explicit parameter of the fact extractor.
-/

namespace KingsHacks

/-- Model of a parsed JSON / Python value, as produced by `json.loads` and
stored inside `merchant_facts`. -/
inductive JVal where
  | null : JVal
  | bool : Bool → JVal
  | num : ℚ → JVal
  | str : String → JVal
  | arr : List JVal → JVal
  | obj : List (String × JVal) → JVal

/-- A JSON object: the association list backing a parsed Python `dict`
(parsed JSON objects have distinct keys; lookups take the first match). -/
abbrev JObj := List (String × JVal)

/-- Python truthiness (`bool(x)` / `if x:`) of a JSON value. -/
def pyTruthy : JVal → Bool
  | .null => false
  | .bool b => b
  | .num q => decide (q ≠ 0)
  | .str s => decide (s ≠ "")
  | .arr xs => !xs.isEmpty
  | .obj kvs => !kvs.isEmpty

/-- Python truthiness of `d.get(k)`: an absent key is `None`, hence falsy. -/
def pyTruthyOpt : Option JVal → Bool
  | none => false
  | some v => pyTruthy v

/-- Python `str(x)`.  Strings, booleans and `None` are rendered exactly;
numbers and containers are rendered structurally (Python renders floats and
container reprs; no claim inspects those renderings). -/
def pyStr : JVal → String
  | .null => "None"
  | .bool true => "True"
  | .bool false => "False"
  | .num q => if q.den = 1 then toString q.num else toString q
  | .str s => s
  | .arr _ => "[...]"
  | .obj _ => "\x7b...\x7d"

/-- Python `float(x)` on a JSON value, as used inside the extractor's
`try: float(...) except: pass` blocks: numbers and booleans convert,
everything else raises (modelled as `none`; Python would additionally accept
numeric strings, which never occur in the claims under verification). -/
def pyFloat : JVal → Option ℚ
  | .num q => some q
  | .bool b => some (if b then 1 else 0)
  | _ => none

/-- `dict.get(k)` on a parsed JSON object. -/
def jGet (kvs : JObj) (k : String) : Option JVal :=
  (kvs.find? (fun kv => kv.1 == k)).map (fun kv => kv.2)

/-- Python `a or b` for strings: `b` when `a` is falsy (empty). -/
def pyOrStr (a b : String) : String :=
  if a = "" then b else a

/-- `d[k] = v` on a Python dict modelled as an association list: an existing
key is overwritten in place, a new key is appended (insertion order). -/
def dictInsert {α : Type} (d : List (String × α)) (k : String) (v : α) :
    List (String × α) :=
  if d.any (fun kv => kv.1 == k) then
    d.map (fun kv => if kv.1 == k then (k, v) else kv)
  else d ++ [(k, v)]

/-- `d.get(k)` on a Python dict modelled as an association list. -/
def dictGet {α : Type} (d : List (String × α)) (k : String) : Option α :=
  (d.find? (fun kv => kv.1 == k)).map (fun kv => kv.2)

/-- `s.add(x)` on a Python set of strings modelled as a duplicate-free list. -/
def setAdd (s : List String) (x : String) : List String :=
  if x ∈ s then s else s ++ [x]

/-! Structurally recursive string primitives modelling the Python string
methods used by the source (`lower`, `upper`, `strip`, `startswith`,
slicing, substring containment).  They operate on the character list of the
string, which matches Python's per-character semantics for the ASCII data
handled by this engine. -/

/-- Is the first character list a prefix of the second? -/
def charsPrefixOf : List Char → List Char → Bool
  | [], _ => true
  | _ :: _, [] => false
  | a :: as, b :: bs => a == b && charsPrefixOf as bs

/-- Does `k` occur as a contiguous run inside the second list? -/
def charsInfixOf (k : List Char) : List Char → Bool
  | [] => charsPrefixOf k []
  | b :: bs => charsPrefixOf k (b :: bs) || charsInfixOf k bs

/-- Python `k in s` substring containment on strings. -/
def strContains (s k : String) : Bool :=
  charsInfixOf k.data s.data

/-- Python `s.lower()` (ASCII). -/
def strLower (s : String) : String :=
  ⟨s.data.map Char.toLower⟩

/-- Python `s.upper()` (ASCII). -/
def strUpper (s : String) : String :=
  ⟨s.data.map Char.toUpper⟩

/-- Python `s.strip()`: remove leading and trailing whitespace. -/
def strTrim (s : String) : String :=
  ⟨((s.data.dropWhile Char.isWhitespace).reverse.dropWhile
      Char.isWhitespace).reverse⟩

/-- Python slicing `s[n:]`. -/
def strDrop (s : String) (n : Nat) : String :=
  ⟨s.data.drop n⟩

/-- Python `s.startswith(pre)`. -/
def strStartsWith (s pre : String) : Bool :=
  charsPrefixOf pre.data s.data

/-- `risk.Personalization` (src/backend/risk.py:8-23). -/
structure Personalization where
  current_country : Option String := none
  trip_countries : List String := []
  sms_available : Option Bool := none
  preferred_verification : Option String := none
  daily_budget : Option ℚ := none
  typical_amount_min : Option ℚ := none
  typical_amount_max : Option ℚ := none
  trusted_high : List String := []
  trusted_med : List String := []
  trusted_low : List String := []
  merchant_facts : List (String × JObj) := []

/-- `risk._safe_json_loads` (src/backend/risk.py:26-31): parse, keep only
dict results, map any parse exception to `None`.  The stdlib `json.loads`
is the explicit `parse` parameter; a raised exception is `parse s = none`. -/
def _safe_json_loads (parse : String → Option JVal) (s : String) : Option JObj :=
  match parse s with
  | some (.obj kvs) => some kvs
  | _ => none

/-- `risk._norm_merchant` (src/backend/risk.py:34-35): `name.strip().lower()`. -/
def _norm_merchant (name : String) : String :=
  strLower (strTrim name)

/-- One row returned by the external fact store: the `memory` field of the
record dict (`m.get("memory")`); an absent key is `none`. -/
structure MemoryRecord where
  memory : Option String := none

/-- The dispatch on the trimmed record text performed by the body of the
`for` loop of `risk.extract_personalization` (src/backend/risk.py:46-105),
one branch per recognized `TP_` prefix, in source order. -/
def extractStepMem (parse : String → Option JVal) (p : Personalization)
    (mem : String) : Personalization :=
  if strStartsWith mem "TP_PROFILE" then
    match _safe_json_loads parse (strTrim (strDrop mem "TP_PROFILE".length)) with
    | none => p
    | some obj =>
      if obj.isEmpty then p
      else
        let p1 := match jGet obj "current_country" with
          | some v =>
            if pyTruthy v then
              { p with current_country := some (strTrim (strUpper (pyStr v))) }
            else p
          | none => p
        let p2 := match jGet obj "trip_countries" with
          | some (.arr xs) =>
            { p1 with trip_countries :=
                ((xs.filter (fun x => strTrim (pyStr x) != "")).map
                  (fun x => strTrim (strUpper (pyStr x)))) }
          | _ => p1
        let p3 := match jGet obj "sms_available" with
          | some .null => p2
          | some v => { p2 with sms_available := some (pyTruthy v) }
          | none => p2
        let p4 := match jGet obj "preferred_verification" with
          | some v =>
            if pyTruthy v then
              { p3 with preferred_verification := some (strTrim (strUpper (pyStr v))) }
            else p3
          | none => p3
        match jGet obj "daily_budget" with
        | some .null => p4
        | some v =>
          match pyFloat v with
          | some q => { p4 with daily_budget := some q }
          | none => p4
        | none => p4
  else if strStartsWith mem "TP_BASELINE" then
    match _safe_json_loads parse (strTrim (strDrop mem "TP_BASELINE".length)) with
    | none => p
    | some obj =>
      if obj.isEmpty then p
      else
        let p1 := match jGet obj "typical_amount_min" with
          | some .null => p
          | some v =>
            match pyFloat v with
            | some q => { p with typical_amount_min := some q }
            | none => p
          | none => p
        match jGet obj "typical_amount_max" with
        | some .null => p1
        | some v =>
          match pyFloat v with
          | some q => { p1 with typical_amount_max := some q }
          | none => p1
        | none => p1
  else if strStartsWith mem "TP_TRUSTED_MERCHANT_HIGH" then
    if strTrim (strDrop mem "TP_TRUSTED_MERCHANT_HIGH".length) ≠ "" then
      { p with trusted_high := (setAdd p.trusted_high
          (_norm_merchant (strTrim (strDrop mem "TP_TRUSTED_MERCHANT_HIGH".length)))) }
    else p
  else if strStartsWith mem "TP_TRUSTED_MERCHANT_MED" then
    if strTrim (strDrop mem "TP_TRUSTED_MERCHANT_MED".length) ≠ "" then
      { p with trusted_med := (setAdd p.trusted_med
          (_norm_merchant (strTrim (strDrop mem "TP_TRUSTED_MERCHANT_MED".length)))) }
    else p
  else if strStartsWith mem "TP_TRUSTED_MERCHANT_LOW" then
    if strTrim (strDrop mem "TP_TRUSTED_MERCHANT_LOW".length) ≠ "" then
      { p with trusted_low := (setAdd p.trusted_low
          (_norm_merchant (strTrim (strDrop mem "TP_TRUSTED_MERCHANT_LOW".length)))) }
    else p
  else if strStartsWith mem "TP_TRUSTED_MERCHANT" then
    -- Back-compat: treat as HIGH
    if strTrim (strDrop mem "TP_TRUSTED_MERCHANT".length) ≠ "" then
      { p with trusted_high := (setAdd p.trusted_high
          (_norm_merchant (strTrim (strDrop mem "TP_TRUSTED_MERCHANT".length)))) }
    else p
  else if strStartsWith mem "TP_MERCHANT_FACTS" then
    match _safe_json_loads parse (strTrim (strDrop mem "TP_MERCHANT_FACTS".length)) with
    | none => p
    | some obj =>
      match jGet obj "merchant" with
      | some mv =>
        if pyTruthy mv then
          { p with merchant_facts :=
              dictInsert p.merchant_facts (_norm_merchant (pyStr mv)) obj }
        else p
      | none => p
  else p

/-- The body of the `for` loop of `risk.extract_personalization`
(src/backend/risk.py:41-105): trim the record's text, skip empty records,
otherwise dispatch on the tag prefix. -/
def extractStep (parse : String → Option JVal) (p : Personalization)
    (m : MemoryRecord) : Personalization :=
  let mem := strTrim (m.memory.getD "")
  if mem = "" then p
  else extractStepMem parse p mem

/-- `risk.extract_personalization` (src/backend/risk.py:38-107):
fold all retrieved memory records into a fresh profile. -/
def extract_personalization (parse : String → Option JVal)
    (retrieved_memories : List MemoryRecord) : Personalization :=
  retrieved_memories.foldl (extractStep parse) {}

/-- Trimmed record text the extractor cannot interpret: a JSON-carrying tag
whose payload does not parse to a dict, a trust tag with an empty merchant
name, a `TP_MERCHANT_FACTS` object without a truthy `merchant` key, or an
unrecognized prefix.  Mirrors the branch structure of `extractStepMem`. -/
def recordUnparsedMem (parse : String → Option JVal) (mem : String) : Bool :=
  if strStartsWith mem "TP_PROFILE" then
    (_safe_json_loads parse (strTrim (strDrop mem "TP_PROFILE".length))).isNone
  else if strStartsWith mem "TP_BASELINE" then
    (_safe_json_loads parse (strTrim (strDrop mem "TP_BASELINE".length))).isNone
  else if strStartsWith mem "TP_TRUSTED_MERCHANT_HIGH" then
    strTrim (strDrop mem "TP_TRUSTED_MERCHANT_HIGH".length) == ""
  else if strStartsWith mem "TP_TRUSTED_MERCHANT_MED" then
    strTrim (strDrop mem "TP_TRUSTED_MERCHANT_MED".length) == ""
  else if strStartsWith mem "TP_TRUSTED_MERCHANT_LOW" then
    strTrim (strDrop mem "TP_TRUSTED_MERCHANT_LOW".length) == ""
  else if strStartsWith mem "TP_TRUSTED_MERCHANT" then
    strTrim (strDrop mem "TP_TRUSTED_MERCHANT".length) == ""
  else if strStartsWith mem "TP_MERCHANT_FACTS" then
    match _safe_json_loads parse (strTrim (strDrop mem "TP_MERCHANT_FACTS".length)) with
    | none => true
    | some obj => !pyTruthyOpt (jGet obj "merchant")
  else true

/-- A memory record the extractor cannot interpret: missing or empty text,
or trimmed text that `recordUnparsedMem` rejects. -/
def recordUnparsed (parse : String → Option JVal) (m : MemoryRecord) : Bool :=
  strTrim (m.memory.getD "") == "" ||
    recordUnparsedMem parse (strTrim (m.memory.getD ""))

/-- `risk.Purchase` (src/backend/risk.py:110-119). -/
structure Purchase where
  merchant : String
  amount : ℚ
  currency : String
  country : String
  dcc_offered : Bool := false
  channel : String := "CNP"
  item_description : Option String := none
  shipping_country : Option String := none

/-- The redacted `personalization_used` summary built at
src/backend/risk.py:282-291. -/
structure PersonalizationUsed where
  current_country : Option String
  trip_countries : List String
  sms_available : Option Bool
  preferred_verification : Option String
  typical_amount_max : Option ℚ
  trusted_high_count : Nat
  trusted_med_count : Nat
  trusted_low_count : Nat

/-- `risk.RiskResult` (src/backend/risk.py:122-132). -/
structure RiskResult where
  decision : String
  challenge_method : String
  risk_score : ℤ
  risk_level : String
  merchant_trust_tier : String
  reasons : List String
  explain : String
  user_message : String
  personalization_used : PersonalizationUsed

/-- Python `round()` (banker's rounding, ties to the even integer),
over exact rationals. -/
def pyRound (x : ℚ) : ℤ :=
  let f := Int.floor x
  let frac := x - f
  if frac < 1/2 then f
  else if 1/2 < frac then f + 1
  else if f % 2 = 0 then f else f + 1

/-- `risk._clamp_int` (src/backend/risk.py:135-136); the `lo`/`hi`
parameters default to 0/100 and are never overridden by any caller. -/
def _clamp_int (x : ℚ) : ℤ :=
  max 0 (min 100 (pyRound x))

/-- `risk._risk_level` (src/backend/risk.py:139-144). -/
def _risk_level (score : ℤ) : String :=
  if score ≥ 60 then "HIGH"
  else if score ≥ 30 then "MEDIUM"
  else "LOW"

/-- `risk._merchant_tier` (src/backend/risk.py:147-154). -/
def _merchant_tier (merchant_norm : String) (p : Personalization) : String :=
  if merchant_norm ∈ p.trusted_high then "HIGH"
  else if merchant_norm ∈ p.trusted_med then "MEDIUM"
  else if merchant_norm ∈ p.trusted_low then "LOW"
  else "LOW"

/-- `risk._looks_like_gift_card` (src/backend/risk.py:157-161):
`if not item_desc` catches both `None` and the empty string. -/
def _looks_like_gift_card : Option String → Bool
  | none => false
  | some d =>
    if d = "" then false
    else
      let s := strLower d
      ["gift card", "giftcard", "voucher", "steam card", "apple gift",
        "google play"].any (fun k => strContains s k)

/-- The additive scoring loop of `risk.score_purchase`
(src/backend/risk.py:165-247): raw (pre-clamp) score together with the full
reasons list accumulated in evaluation order.  `0.4` and `1.2` are the exact
decimals `2/5` and `6/5`. -/
def scoreAndReasons (purchase : Purchase) (personalization : Personalization)
    (trust_score : ℤ) : ℚ × List String :=
  let merchant_norm := _norm_merchant purchase.merchant
  let purchase_country := strUpper (strTrim purchase.country)
  let tier := _merchant_tier merchant_norm personalization
  let facts := (dictGet personalization.merchant_facts merchant_norm).getD []
  let category :=
    strUpper (strTrim (match jGet facts "category" with
      | some (.str s) => s
      | _ => ""))
  let channel := strUpper (strTrim (pyOrStr purchase.channel "CNP"))
  let s0 : ℚ × List String := (0, [])
  let s1 : ℚ × List String :=
    if channel = "CNP" then
      (s0.1 + 12, s0.2 ++ ["Online (card-not-present) purchase"])
    else s0
  let s2 : ℚ × List String :=
    if (match personalization.current_country with
        | some c => c != "" && purchase_country != "" && purchase_country != c
        | none => false) then
      (s1.1 + 30, s1.2 ++ ["Country mismatch vs travel mode"])
    else s1
  let s3 : ℚ × List String :=
    if personalization.trip_countries ≠ [] ∧
        purchase_country ∈ personalization.trip_countries then
      (s2.1 - 10, s2.2 ++ ["Purchase is in your declared trip country"])
    else s2
  let s4 : ℚ × List String :=
    if (match purchase.shipping_country, personalization.current_country with
        | some sc, some c =>
          sc != "" && c != "" && strUpper (strTrim sc) != c
        | _, _ => false) then
      (s3.1 + 12, s3.2 ++ ["Shipping country differs from your current travel country"])
    else s3
  let s5 : ℚ × List String :=
    if category = "GROCERY" then
      (s4.1 - 5, s4.2 ++ ["Grocery purchase (low fraud profile)"])
    else if category = "TRANSIT" then
      (s4.1 - 3, s4.2 ++ ["Transit purchase (common while traveling)"])
    else if category = "APPAREL" then
      (s4.1 + 2, s4.2 ++ ["Retail apparel purchase"])
    else if category = "FURNITURE" then
      (s4.1 + 8, s4.2 ++ ["Large-ticket retail category"])
    else if category = "ALCOHOL" then
      (s4.1 + 5, s4.2 ++ ["Restricted category purchase"])
    else s4
  let gift_card_like := _looks_like_gift_card purchase.item_description
  let s6 : ℚ × List String :=
    if gift_card_like then
      (s5.1 + 40, s5.2 ++ ["Item resembles a gift card / voucher (high scam risk)"])
    else s5
  let s7 : ℚ × List String :=
    match personalization.typical_amount_max with
    | some tmax =>
      if purchase.amount > 2 * tmax then
        (s6.1 + 25, s6.2 ++ ["Amount is much higher than your typical spending"])
      else if purchase.amount > (6/5) * tmax then
        (s6.1 + 10, s6.2 ++ ["Amount is above your typical range"])
      else s6
    | none => s6
  let s8 : ℚ × List String :=
    if purchase.dcc_offered then
      (s7.1 + 5, s7.2 ++ ["Merchant offered DCC (extra fee risk)"])
    else s7
  let s9 : ℚ × List String :=
    if tier = "HIGH" then
      (s8.1 - 25, s8.2 ++ ["High-trust merchant"])
    else if tier = "MEDIUM" then
      (s8.1 + 5, s8.2 ++ ["Medium-trust merchant"])
    else
      (s8.1 + 15, s8.2 ++ ["Low/unknown merchant"])
  (s9.1 - (trust_score - 50) * (2/5), s9.2)

/-- `risk.score_purchase` (src/backend/risk.py:164-303).  The `trust_score`
parameter defaults to 50 in the source; every caller passes it explicitly
here. -/
def score_purchase (purchase : Purchase) (personalization : Personalization)
    (trust_score : ℤ) : RiskResult :=
  let merchant_norm := _norm_merchant purchase.merchant
  let tier := _merchant_tier merchant_norm personalization
  let facts := (dictGet personalization.merchant_facts merchant_norm).getD []
  let restricted := pyTruthyOpt (jGet facts "restricted")
  let gift_card_like := _looks_like_gift_card purchase.item_description
  let sr := scoreAndReasons purchase personalization trust_score
  let risk_score := _clamp_int sr.1
  let risk_level := _risk_level risk_score
  let dmu :=
    if restricted || gift_card_like then
      ("CHALLENGE", "PASSKEY",
        "Quick passkey approval required for this type of purchase while traveling.")
    else if tier = "HIGH" then
      ("APPROVE", "NONE", "Trusted merchant — approved with no extra steps.")
    else if tier = "MEDIUM" then
      ("CHALLENGE", "PASSKEY", "Quick passkey check to confirm it’s you.")
    else
      ("CHALLENGE", "PASSKEY", "Unrecognized merchant — approve with passkey or decline.")
  let top_reasons := sr.2.take 3
  let explain :=
    "Risk score " ++ toString risk_score ++ "/100 (" ++ risk_level ++ "). "
      ++ (if dmu.1 = "APPROVE" then "Approved. " else "Verification required. ")
      ++ "Key factors: " ++ String.intercalate "; " top_reasons ++ "."
  { decision := dmu.1
    challenge_method := dmu.2.1
    risk_score := risk_score
    risk_level := risk_level
    merchant_trust_tier := tier
    reasons := top_reasons
    explain := explain
    user_message := dmu.2.2
    personalization_used :=
      { current_country := personalization.current_country
        trip_countries := personalization.trip_countries
        sms_available := personalization.sms_available
        preferred_verification := personalization.preferred_verification
        typical_amount_max := personalization.typical_amount_max
        trusted_high_count := personalization.trusted_high.length
        trusted_med_count := personalization.trusted_med.length
        trusted_low_count := personalization.trusted_low.length } }

/-! ### Persistence layer (src/backend/db.py)

The sqlite tables are modelled as in-memory lists of rows; `_now_iso()` is an
explicit `now : String` parameter threaded by each caller. -/

/-- A row of the `sessions` table (the fields selected by `db.get_session`). -/
structure SessionRow where
  session_id : String
  assistant_id : String
  thread_id : String

/-- A row of the `cards` table. -/
structure CardRow where
  id : Int
  session_id : String
  nickname : Option String
  network : String
  last4 : String
  exp_month : Option Int
  exp_year : Option Int
  billing_country : Option String
  created_at : String

/-- A row of the `challenges` table. -/
structure ChallengeRow where
  challenge_id : String
  session_id : String
  method : String
  status : String
  created_at : String
  resolved_at : Option String

/-- A row of the `payment_attempts` table; `dcc_offered` is stored as the
integer `1 if dcc_offered else 0`. -/
structure PaymentAttemptRow where
  id : Int
  session_id : String
  card_id : Option Int
  merchant : String
  amount : ℚ
  currency : String
  country : String
  channel : String
  item_description : Option String
  dcc_offered : Int
  decision : Option String
  challenge_method : Option String
  risk_score : Option ℤ
  status : String
  challenge_id : Option String
  created_at : String
  raw_json : String

/-- The database state: the four tables used by the payment pipeline, plus
the AUTOINCREMENT counter of `payment_attempts`. -/
structure DBState where
  sessions : List SessionRow := []
  cards : List CardRow := []
  payment_attempts : List PaymentAttemptRow := []
  challenges : List ChallengeRow := []
  next_attempt_id : Int := 1

/-- `db.get_session` (src/backend/db.py:118-126). -/
def get_session (db : DBState) (session_id : String) : Option SessionRow :=
  db.sessions.find? (fun s => s.session_id == session_id)

/-- `db.get_card` (src/backend/db.py:241-261): select by session and id. -/
def get_card (db : DBState) (session_id : String) (card_id : Int) :
    Option CardRow :=
  db.cards.find? (fun c => c.session_id == session_id && c.id == card_id)

/-- `db.insert_payment_attempt` (src/backend/db.py:264-310): append one row,
returning the new state and the row id (`cur.lastrowid`). -/
def insert_payment_attempt (db : DBState) (session_id : String)
    (card_id : Option Int) (merchant : String) (amount : ℚ)
    (currency country channel : String) (item_description : Option String)
    (dcc_offered : Bool) (decision challenge_method : Option String)
    (risk_score : Option ℤ) (status : String) (challenge_id : Option String)
    (raw_json : String) (now : String) : DBState × Int :=
  let row : PaymentAttemptRow :=
    { id := db.next_attempt_id
      session_id := session_id
      card_id := card_id
      merchant := merchant
      amount := amount
      currency := currency
      country := country
      channel := strUpper (pyOrStr channel "CNP")
      item_description := item_description
      dcc_offered := if dcc_offered then 1 else 0
      decision := decision
      challenge_method := challenge_method
      risk_score := risk_score
      status := status
      challenge_id := challenge_id
      created_at := now
      raw_json := raw_json }
  ({ db with payment_attempts := db.payment_attempts ++ [row]
             next_attempt_id := db.next_attempt_id + 1 },
   db.next_attempt_id)

/-- `db.create_challenge` (src/backend/db.py:313-321): insert one challenge
row with `resolved_at = NULL`.  (`challenge_id` is the table's primary key;
callers pass a fresh uuid, so the insert is modelled as an append.) -/
def create_challenge (db : DBState) (challenge_id session_id method status : String)
    (now : String) : DBState :=
  { db with challenges := db.challenges ++
      [{ challenge_id := challenge_id
         session_id := session_id
         method := method
         status := status
         created_at := now
         resolved_at := none }] }

/-- `db.resolve_challenge` (src/backend/db.py:324-333): unconditionally
UPDATE status and resolved_at of every row matching challenge and session. -/
def resolve_challenge (db : DBState) (challenge_id session_id status : String)
    (now : String) : DBState :=
  { db with challenges := db.challenges.map (fun ch =>
      if ch.challenge_id == challenge_id && ch.session_id == session_id then
        { ch with status := status, resolved_at := some now }
      else ch) }

/-- `db.get_challenge` (src/backend/db.py:336-352): select by session and
challenge id. -/
def get_challenge (db : DBState) (session_id challenge_id : String) :
    Option ChallengeRow :=
  db.challenges.find? (fun ch =>
    ch.session_id == session_id && ch.challenge_id == challenge_id)

/-! ### Payment endpoints (src/backend/main.py)

`HTTPException` is modelled by the error side of `Except`; the uuid drawn by
`uuid.uuid4()`, the clock, the remote fact store's reply and the JSON parser
are explicit parameters. -/

/-- A raised `HTTPException`. -/
structure HTTPError where
  status_code : Nat
  detail : String
deriving DecidableEq

/-- `main.PaymentAuthorizeRequest` (src/backend/main.py:135-144). -/
structure PaymentAuthorizeRequest where
  card_id : Int
  merchant : String
  amount : ℚ
  currency : String
  country : String
  dcc_offered : Bool := false
  channel : String := "CNP"
  item_description : Option String := none
  shipping_country : Option String := none

/-- The card summary dict returned inside the authorize response. -/
structure CardSummary where
  id : Int
  nickname : Option String
  network : String
  last4 : String

/-- `main.PaymentAuthorizeResponse` (src/backend/main.py:147-160). -/
structure PaymentAuthorizeResponse where
  status : String
  decision : String
  challenge_method : String
  risk_score : ℤ
  risk_level : String
  merchant_trust_tier : String
  reasons : List String
  explain : String
  user_message : String
  challenge_id : Option String
  card : Option CardSummary
  personalization_used : PersonalizationUsed
  retrieved_memories : Option (List MemoryRecord)

/-- `main.ChallengeVerifyRequest` (src/backend/main.py:163-165). -/
structure ChallengeVerifyRequest where
  challenge_id : String
  action : String

/-- `main.ChallengeVerifyResponse` (src/backend/main.py:168-172). -/
structure ChallengeVerifyResponse where
  status : String
  challenge_id : String
  method : String
  message : String

/-- The `raw` audit payload serialised by `json.dumps(raw, default=str)` at
src/backend/main.py:523-538, modelled as a structural rendering (no claim
inspects this audit string). -/
def rawAuditJson (card : CardRow) (payload : PaymentAuthorizeRequest)
    (result : RiskResult) (status : String) (challenge_id : Option String) :
    String :=
  "card.id=" ++ toString card.id
    ++ ";merchant=" ++ payload.merchant
    ++ ";decision=" ++ result.decision
    ++ ";challenge_method=" ++ result.challenge_method
    ++ ";risk_score=" ++ toString result.risk_score
    ++ ";status=" ++ status
    ++ ";challenge_id=" ++ (challenge_id.getD "null")

/-- The `Purchase` constructed from the request payload at
src/backend/main.py:495-504. -/
def purchaseOfPayload (payload : PaymentAuthorizeRequest) : Purchase :=
  { merchant := payload.merchant
    amount := payload.amount
    currency := payload.currency
    country := payload.country
    dcc_offered := payload.dcc_offered
    channel := payload.channel
    item_description := payload.item_description
    shipping_country := payload.shipping_country }

/-- `main.payment_authorize` (src/backend/main.py:473-573).  `retrieved` is
the fact-store reply, `parse` the JSON parser, `fresh_uuid` the value drawn
by `uuid.uuid4()` and `now` the clock reading used for the db writes. -/
def payment_authorize (db : DBState) (session_id : String)
    (payload : PaymentAuthorizeRequest) (retrieved : List MemoryRecord)
    (parse : String → Option JVal) (fresh_uuid : String) (now : String) :
    Except HTTPError (DBState × PaymentAuthorizeResponse) :=
  match get_session db session_id with
  | none => .error ⟨404, "Session " ++ session_id ++ " not found"⟩
  | some _session =>
    match get_card db session_id payload.card_id with
    | none => .error ⟨404, "Card " ++ toString payload.card_id ++ " not found for session"⟩
    | some card =>
      let p := extract_personalization parse retrieved
      let result := score_purchase (purchaseOfPayload payload) p 50
      let sci : String × Option String × DBState :=
        if result.decision = "APPROVE" then
          ("APPROVED", none, db)
        else
          ("CHALLENGE_REQUIRED", some fresh_uuid,
            create_challenge db fresh_uuid session_id result.challenge_method
              "PENDING" now)
      let raw := rawAuditJson card payload result sci.1 sci.2.1
      let db2 := (insert_payment_attempt sci.2.2 session_id (some payload.card_id)
        payload.merchant payload.amount payload.currency payload.country
        payload.channel payload.item_description payload.dcc_offered
        (some result.decision) (some result.challenge_method)
        (some result.risk_score) sci.1 sci.2.1 raw now).1
      .ok (db2,
        { status := sci.1
          decision := result.decision
          challenge_method := result.challenge_method
          risk_score := result.risk_score
          risk_level := result.risk_level
          merchant_trust_tier := result.merchant_trust_tier
          reasons := result.reasons
          explain := result.explain
          user_message := result.user_message
          challenge_id := sci.2.1
          card := some { id := card.id, nickname := card.nickname,
                         network := card.network, last4 := card.last4 }
          personalization_used := result.personalization_used
          retrieved_memories := some retrieved })

/-- `main.payment_challenge_verify` (src/backend/main.py:576-607). -/
def payment_challenge_verify (db : DBState) (session_id : String)
    (payload : ChallengeVerifyRequest) (now : String) :
    Except HTTPError (DBState × ChallengeVerifyResponse) :=
  match get_session db session_id with
  | none => .error ⟨404, "Session " ++ session_id ++ " not found"⟩
  | some _ =>
    match get_challenge db session_id payload.challenge_id with
    | none => .error ⟨404, "Challenge not found"⟩
    | some ch =>
      let action := strUpper (strTrim payload.action)
      if action ≠ "APPROVE" ∧ action ≠ "DENY" then
        .error ⟨400, "action must be APPROVE or DENY"⟩
      else if action = "DENY" then
        .ok (resolve_challenge db payload.challenge_id session_id "DENIED" now,
          { status := "DENIED"
            challenge_id := payload.challenge_id
            method := ch.method
            message := "User denied the challenge." })
      else
        .ok (resolve_challenge db payload.challenge_id session_id "COMPLETED" now,
          { status := "COMPLETED"
            challenge_id := payload.challenge_id
            method := ch.method
            message := "Challenge approved. Payment completed." })

/-! ### Fixtures for the concrete scenarios and witnesses -/

/-- Profile and purchase of spec Scenario A: current country SE, trip
country SE, typical amount max 600, merchant IKEA trusted HIGH with
merchant_facts category FURNITURE; purchase IKEA, 500, SE, CNP. -/
def factsIkea : JObj :=
  [("merchant", JVal.str "IKEA"), ("category", JVal.str "FURNITURE")]

/-- Scenario A personalization profile. -/
def profileA : Personalization :=
  { current_country := some "SE"
    trip_countries := ["SE"]
    typical_amount_max := some 600
    trusted_high := ["ikea"]
    merchant_facts := [("ikea", factsIkea)] }

/-- Scenario A purchase. -/
def purchaseA : Purchase :=
  { merchant := "IKEA", amount := 500, currency := "SEK", country := "SE",
    channel := "CNP" }

/-- Fixture card for the authorization witnesses. -/
def cardW : CardRow :=
  { id := 7, session_id := "s1", nickname := some "travel", network := "VISA",
    last4 := "4242", exp_month := some 12, exp_year := some 2030,
    billing_country := some "SE", created_at := "t0" }

/-- Fixture database with one session and one card. -/
def dbAuth : DBState :=
  { sessions := [⟨"s1", "a1", "t1"⟩], cards := [cardW] }

/-- Fixture authorize request for an unknown merchant. -/
def payloadW : PaymentAuthorizeRequest :=
  { card_id := 7, merchant := "Mystery Mart", amount := 42, currency := "EUR",
    country := "FR" }

/-- Fixture database for the challenge-resolution witnesses: one session
and one already-terminal (COMPLETED) challenge. -/
def dbVerify : DBState :=
  { sessions := [⟨"s1", "a1", "t1"⟩]
    challenges := [⟨"c1", "s1", "PASSKEY", "COMPLETED", "t0", some "t0"⟩] }

/-- A profile whose sets overlap: "shop" is tagged in all three tiers,
"cafe" in MED and LOW, "bar" only in LOW. -/
def profileOverlap : Personalization :=
  { trusted_high := ["shop"]
    trusted_med := ["shop", "cafe"]
    trusted_low := ["shop", "cafe", "bar"] }

/-! ### Claims -/

/-- C1: for every purchase and personalization profile, the scorer's decision
follows the discrete tier/flag policy in priority order — restricted merchant
or gift-card heuristic match forces CHALLENGE/PASSKEY regardless of tier or
score; otherwise trust tier HIGH yields APPROVE/NONE; every other tier
(MEDIUM, LOW, unknown) yields CHALLENGE/PASSKEY — and the numeric risk score
never influences the decision (the decision and challenge method are
invariant under the trust score that drives the numeric score). -/
theorem C1_decision_policy (purchase : Purchase) (p : Personalization)
    (trust_score trust_score' : ℤ) :
    (let facts := (dictGet p.merchant_facts (_norm_merchant purchase.merchant)).getD []
     let restricted := pyTruthyOpt (jGet facts "restricted")
     let gift := _looks_like_gift_card purchase.item_description
     let tier := _merchant_tier (_norm_merchant purchase.merchant) p
     ((score_purchase purchase p trust_score).decision,
       (score_purchase purchase p trust_score).challenge_method) =
      (if restricted || gift then ("CHALLENGE", "PASSKEY")
       else if tier = "HIGH" then ("APPROVE", "NONE")
       else ("CHALLENGE", "PASSKEY"))) ∧
    (score_purchase purchase p trust_score).decision =
      (score_purchase purchase p trust_score').decision ∧
    (score_purchase purchase p trust_score).challenge_method =
      (score_purchase purchase p trust_score').challenge_method := by
  refine ⟨?_, rfl, rfl⟩
  simp only [score_purchase]
  by_cases hr : (pyTruthyOpt (jGet ((dictGet p.merchant_facts
      (_norm_merchant purchase.merchant)).getD []) "restricted") ||
      _looks_like_gift_card purchase.item_description) = true
  · simp [hr]
  · by_cases hh : _merchant_tier (_norm_merchant purchase.merchant) p = "HIGH"
    · simp [hr, hh]
    · by_cases hm : _merchant_tier (_norm_merchant purchase.merchant) p = "MEDIUM" <;>
        simp [hr, hh, hm]

/-- C2: for every purchase, profile and trust score, the returned risk score
is an integer clamped to [0, 100], and the risk level is derived exactly by
the thresholds LOW below 30, MEDIUM from 30 to 59, HIGH from 60 up
(in particular 29 is LOW, 30 and 59 MEDIUM, 60 HIGH). -/
theorem C2_score_clamped_level (purchase : Purchase) (p : Personalization)
    (trust_score : ℤ) :
    (0 ≤ (score_purchase purchase p trust_score).risk_score ∧
      (score_purchase purchase p trust_score).risk_score ≤ 100) ∧
    (score_purchase purchase p trust_score).risk_level =
      (if (score_purchase purchase p trust_score).risk_score < 30 then "LOW"
       else if (score_purchase purchase p trust_score).risk_score ≤ 59 then "MEDIUM"
       else "HIGH") ∧
    _risk_level 29 = "LOW" ∧ _risk_level 30 = "MEDIUM" ∧
    _risk_level 59 = "MEDIUM" ∧ _risk_level 60 = "HIGH" := by
  have hsc : (score_purchase purchase p trust_score).risk_score =
      _clamp_int (scoreAndReasons purchase p trust_score).1 := rfl
  have hlv : (score_purchase purchase p trust_score).risk_level =
      _risk_level ((score_purchase purchase p trust_score).risk_score) := rfl
  refine ⟨?_, ?_, rfl, rfl, rfl, rfl⟩
  · rw [hsc]
    unfold _clamp_int
    constructor
    · exact le_max_left 0 _
    · exact max_le (by norm_num) (min_le_left _ _)
  · rw [hlv]
    unfold _risk_level
    split_ifs <;> first | rfl | omega

/-- Helper for C5: a trimmed record text that `recordUnparsedMem` rejects
leaves every profile unchanged. -/
theorem extractStepMem_skip (parse : String → Option JVal) (mem : String)
    (h : recordUnparsedMem parse mem = true) (p : Personalization) :
    extractStepMem parse p mem = p := by
  unfold recordUnparsedMem at h
  unfold extractStepMem
  split_ifs at h ⊢
  any_goals first
    | rfl
    | (rw [Option.isNone_iff_eq_none] at h; rw [h])
    | simp_all
  revert h
  cases hsj : _safe_json_loads parse
      (strTrim (strDrop mem "TP_MERCHANT_FACTS".length)) with
  | none => intro h; rfl
  | some obj =>
    intro h
    have h' : (!pyTruthyOpt (jGet obj "merchant")) = true := h
    show (match jGet obj "merchant" with
      | some mv =>
        if pyTruthy mv then
          { p with merchant_facts :=
              dictInsert p.merchant_facts (_norm_merchant (pyStr mv)) obj }
        else p
      | none => p) = p
    cases hj : jGet obj "merchant" with
    | none => rfl
    | some mv =>
      rw [hj] at h'
      simp only [pyTruthyOpt, Bool.not_eq_true'] at h'
      simp [h']

/-- Helper for C5: a record that `recordUnparsed` rejects leaves every
profile unchanged. -/
theorem extractStep_skip (parse : String → Option JVal) (m : MemoryRecord)
    (h : recordUnparsed parse m = true) (p : Personalization) :
    extractStep parse p m = p := by
  unfold recordUnparsed at h
  rw [Bool.or_eq_true, beq_iff_eq] at h
  unfold extractStep
  rcases h with h | h
  · rw [if_pos h]
  · by_cases he : strTrim (m.memory.getD "") = ""
    · rw [if_pos he]
    · rw [if_neg he]
      exact extractStepMem_skip parse _ h p

/-- C5: the fact extractor is total and defensively skips what it cannot
parse: every record with missing or empty text, an unmatched prefix, or a
malformed payload (JSON that fails to parse for the `TP_PROFILE`,
`TP_BASELINE` or `TP_MERCHANT_FACTS` tags, an empty trust-tag merchant
name, a facts object without a merchant key) leaves the profile unchanged,
so appending such a record to any retrieved sequence does not alter the
extracted personalization. -/
theorem C5_extractor_skips_malformed (parse : String → Option JVal)
    (m : MemoryRecord) (p : Personalization)
    (h : recordUnparsed parse m = true) :
    extractStep parse p m = p ∧
    ∀ rs : List MemoryRecord,
      extract_personalization parse (rs ++ [m]) =
        extract_personalization parse rs := by
  refine ⟨extractStep_skip parse m h p, fun rs => ?_⟩
  unfold extract_personalization
  rw [List.foldl_append]
  simp only [List.foldl_cons, List.foldl_nil]
  exact extractStep_skip parse m h _

/-- C5 witness: a `TP_PROFILE` record whose payload fails to parse is
skipped, on its own and at the end of a sequence. -/
theorem C5_witness :
    extractStep (fun _ => none) ({} : Personalization)
        ⟨some "TP_PROFILE nonsense"⟩ = ({} : Personalization) ∧
    extract_personalization (fun _ => none)
        ([⟨some "TP_TRUSTED_MERCHANT_HIGH Acme"⟩] ++
          [⟨some "TP_PROFILE nonsense"⟩]) =
      extract_personalization (fun _ => none)
        [⟨some "TP_TRUSTED_MERCHANT_HIGH Acme"⟩] :=
  ⟨(C5_extractor_skips_malformed (fun _ => none) ⟨some "TP_PROFILE nonsense"⟩
      {} (by decide)).1,
   (C5_extractor_skips_malformed (fun _ => none) ⟨some "TP_PROFILE nonsense"⟩
      {} (by decide)).2 [⟨some "TP_TRUSTED_MERCHANT_HIGH Acme"⟩]⟩

/-- C6: merchant-name lookups into the trust-tier sets and the merchant_facts
map are insensitive to case and surrounding whitespace: replacing the
purchase's merchant string by any string with the same trimmed, lower-cased
form leaves the whole scoring result — trust tier, merchant-facts lookup and
all — unchanged. -/
theorem C6_merchant_lookup_normalized (p : Personalization) (trust_score : ℤ)
    (m1 m2 : String) (amount : ℚ) (currency country : String) (dcc : Bool)
    (channel : String) (item ship : Option String)
    (h : _norm_merchant m1 = _norm_merchant m2) :
    score_purchase ⟨m1, amount, currency, country, dcc, channel, item, ship⟩
        p trust_score =
      score_purchase ⟨m2, amount, currency, country, dcc, channel, item, ship⟩
        p trust_score := by
  have e1 : (⟨m1, amount, currency, country, dcc, channel, item, ship⟩ :
      Purchase).merchant = m1 := rfl
  have e2 : (⟨m2, amount, currency, country, dcc, channel, item, ship⟩ :
      Purchase).merchant = m2 := rfl
  delta score_purchase scoreAndReasons
  rw [e1, e2, h]

/-- C6 witness: `"IKEA"` and `" ikea "` resolve identically under the
Scenario A profile. -/
theorem C6_witness :
    score_purchase ⟨" ikea ", 500, "SEK", "SE", false, "CNP", none, none⟩
        profileA 50 =
      score_purchase ⟨"IKEA", 500, "SEK", "SE", false, "CNP", none, none⟩
        profileA 50 :=
  C6_merchant_lookup_normalized profileA 50 " ikea " "IKEA" 500 "SEK" "SE"
    false "CNP" none none (by decide)

/-- C9: trust-tier lookup resolves overlaps by fixed priority — membership
in trusted_high yields HIGH regardless of the other sets; otherwise
trusted_med yields MEDIUM; otherwise (trusted_low or absent from all sets)
the tier is LOW. -/
theorem C9_tier_priority (p : Personalization) (merchant_norm : String) :
    (merchant_norm ∈ p.trusted_high → _merchant_tier merchant_norm p = "HIGH") ∧
    (merchant_norm ∉ p.trusted_high → merchant_norm ∈ p.trusted_med →
      _merchant_tier merchant_norm p = "MEDIUM") ∧
    (merchant_norm ∉ p.trusted_high → merchant_norm ∉ p.trusted_med →
      _merchant_tier merchant_norm p = "LOW") := by
  unfold _merchant_tier
  refine ⟨fun h1 => by simp [h1], fun h1 h2 => by simp [h1, h2],
    fun h1 h2 => ?_⟩
  by_cases h3 : merchant_norm ∈ p.trusted_low <;> simp [h1, h2, h3]

/-- C7 counterexample: the claim that channel (+12), trust HIGH (−25) and
category FURNITURE (+8) are the *only* contributing scoring terms in
Scenario A is false — the purchase country SE is in the declared trip
countries, so the trip-country rule (−10) also fires: its reason is reported
in the result, and the raw additive score is −15, not the −5 the claimed
three terms would give. -/
theorem C7_counterexample :
    "Purchase is in your declared trip country" ∈
      (score_purchase purchaseA profileA 50).reasons ∧
    (scoreAndReasons purchaseA profileA 50).1 = -15 ∧
    ¬(scoreAndReasons purchaseA profileA 50).1 = 12 - 25 + 8 := by
  with_unfolding_all decide

/-- C7 amended: Scenario A yields decision APPROVE with challenge_method
NONE, risk_score 0 and risk_level LOW; the contributing scoring terms are
channel (+12), declared-trip-country (−10), category FURNITURE (+8) and
trust HIGH (−25), so the raw score is −15, clamped to 0. -/
theorem C7_scenarioA_amended :
    (score_purchase purchaseA profileA 50).decision = "APPROVE" ∧
    (score_purchase purchaseA profileA 50).challenge_method = "NONE" ∧
    (score_purchase purchaseA profileA 50).risk_score = 0 ∧
    (score_purchase purchaseA profileA 50).risk_level = "LOW" ∧
    (scoreAndReasons purchaseA profileA 50).2 =
      ["Online (card-not-present) purchase",
       "Purchase is in your declared trip country",
       "Large-ticket retail category",
       "High-trust merchant"] ∧
    (scoreAndReasons purchaseA profileA 50).1 = 12 - 10 + 8 - 25 := by
  with_unfolding_all decide

/-- C8 counterexample: under the all-unknown profile, a purchase whose CNP
channel, gift-card-like item and DCC flag fire three earlier rules pushes
"Low/unknown merchant" out of the reported reasons (the result keeps only
the first three), even though the decision is still CHALLENGE/PASSKEY with
tier LOW — refuting the claim that the reasons list includes
"Low/unknown merchant" for every purchase. -/
theorem C8_counterexample :
    (score_purchase
        ⟨"Mystery Mart", 7, "USD", "SE", true, "CNP", some "Steam Gift Card", none⟩
        (extract_personalization (fun _ => none) []) 50).decision = "CHALLENGE" ∧
    (score_purchase
        ⟨"Mystery Mart", 7, "USD", "SE", true, "CNP", some "Steam Gift Card", none⟩
        (extract_personalization (fun _ => none) []) 50).merchant_trust_tier = "LOW" ∧
    "Low/unknown merchant" ∉
      (score_purchase
        ⟨"Mystery Mart", 7, "USD", "SE", true, "CNP", some "Steam Gift Card", none⟩
        (extract_personalization (fun _ => none) []) 50).reasons := by
  with_unfolding_all decide

/-- C8 amended: extracting an empty retrieved-facts sequence yields the
all-unknown profile, under which every purchase to any merchant (no trust
set contains anything) is decided CHALLENGE with challenge_method PASSKEY
and merchant_trust_tier LOW, and the scorer's full internal reasons list
always contains "Low/unknown merchant"; the truncated reasons field of the
result retains it only when fewer than three earlier rules fired. -/
theorem C8_scenarioD_amended (parse : String → Option JVal)
    (purchase : Purchase) (trust_score : ℤ) :
    extract_personalization parse [] = ({} : Personalization) ∧
    (score_purchase purchase (extract_personalization parse [])
      trust_score).decision = "CHALLENGE" ∧
    (score_purchase purchase (extract_personalization parse [])
      trust_score).challenge_method = "PASSKEY" ∧
    (score_purchase purchase (extract_personalization parse [])
      trust_score).merchant_trust_tier = "LOW" ∧
    "Low/unknown merchant" ∈
      (scoreAndReasons purchase (extract_personalization parse [])
        trust_score).2 := by
  refine ⟨rfl, ?_, ?_, ?_, ?_⟩
  · show (score_purchase purchase {} trust_score).decision = "CHALLENGE"
    cases hg : _looks_like_gift_card purchase.item_description <;>
      simp [score_purchase, hg, _merchant_tier, pyTruthyOpt, dictGet, jGet]
  · show (score_purchase purchase {} trust_score).challenge_method = "PASSKEY"
    cases hg : _looks_like_gift_card purchase.item_description <;>
      simp [score_purchase, hg, _merchant_tier, pyTruthyOpt, dictGet, jGet]
  · show (score_purchase purchase {} trust_score).merchant_trust_tier = "LOW"
    simp [score_purchase, _merchant_tier]
  · show "Low/unknown merchant" ∈
      (scoreAndReasons purchase {} trust_score).2
    simp [scoreAndReasons, _merchant_tier, List.mem_append]

/-- C3: when session and card lookup succeed, `payment_authorize` returns
ok; on decision APPROVE exactly one PaymentAttempt is appended with status
APPROVED and no challenge_id and the challenges table is untouched; on any
other decision the supplied fresh challenge id is written as a PENDING
Challenge row before the PaymentAttempt insert runs (the attempt insert is
applied to the state already containing the challenge), that id is unique
in the resulting table, and the single appended PaymentAttempt carries
status CHALLENGE_REQUIRED with that challenge_id, which is also returned. -/
theorem C3_authorize_persistence (db : DBState) (session_id : String)
    (payload : PaymentAuthorizeRequest) (retrieved : List MemoryRecord)
    (parse : String → Option JVal) (fresh_uuid now : String)
    (session : SessionRow) (card : CardRow)
    (hs : get_session db session_id = some session)
    (hc : get_card db session_id payload.card_id = some card)
    (hfresh : ∀ ch ∈ db.challenges, ch.challenge_id ≠ fresh_uuid) :
    ∃ db2 resp,
      payment_authorize db session_id payload retrieved parse fresh_uuid now =
        .ok (db2, resp) ∧
      ((score_purchase (purchaseOfPayload payload)
          (extract_personalization parse retrieved) 50).decision = "APPROVE" →
        db2.challenges = db.challenges ∧
        (∃ row, db2.payment_attempts = db.payment_attempts ++ [row] ∧
          row.status = "APPROVED" ∧ row.challenge_id = none) ∧
        resp.status = "APPROVED" ∧ resp.challenge_id = none) ∧
      ((score_purchase (purchaseOfPayload payload)
          (extract_personalization parse retrieved) 50).decision ≠ "APPROVE" →
        (let result := score_purchase (purchaseOfPayload payload)
            (extract_personalization parse retrieved) 50
         db2 = (insert_payment_attempt
            (create_challenge db fresh_uuid session_id result.challenge_method
              "PENDING" now)
            session_id (some payload.card_id) payload.merchant payload.amount
            payload.currency payload.country payload.channel
            payload.item_description payload.dcc_offered (some result.decision)
            (some result.challenge_method) (some result.risk_score)
            "CHALLENGE_REQUIRED" (some fresh_uuid)
            (rawAuditJson card payload result "CHALLENGE_REQUIRED"
              (some fresh_uuid)) now).1 ∧
         db2.challenges = db.challenges ++
           [⟨fresh_uuid, session_id, result.challenge_method, "PENDING", now,
             none⟩] ∧
         db2.challenges.countP (fun ch => ch.challenge_id == fresh_uuid) = 1 ∧
         (∃ row, db2.payment_attempts = db.payment_attempts ++ [row] ∧
           row.status = "CHALLENGE_REQUIRED" ∧
           row.challenge_id = some fresh_uuid) ∧
         resp.status = "CHALLENGE_REQUIRED" ∧
         resp.challenge_id = some fresh_uuid)) := by
  have h0 : db.challenges.countP (fun ch => ch.challenge_id == fresh_uuid) = 0 := by
    rw [List.countP_eq_zero]
    intro ch hch
    simp [hfresh ch hch]
  by_cases hd : (score_purchase (purchaseOfPayload payload)
      (extract_personalization parse retrieved) 50).decision = "APPROVE"
  · refine ⟨_, _, by simp only [payment_authorize, hs, hc, hd,
        eq_self_iff_true, if_true]; rfl, ?_, ?_⟩
    · exact fun _ => ⟨rfl, ⟨_, rfl, rfl, rfl⟩, rfl, rfl⟩
    · exact fun hne => absurd hd hne
  · refine ⟨_, _, by simp only [payment_authorize, hs, hc, if_neg hd]; rfl,
      ?_, ?_⟩
    · exact fun hne => absurd hne hd
    · intro _
      refine ⟨rfl, rfl, ?_, ⟨_, rfl, rfl, rfl⟩, rfl, rfl⟩
      show ((create_challenge db fresh_uuid session_id _ "PENDING"
          now).challenges).countP (fun ch => ch.challenge_id == fresh_uuid) = 1
      unfold create_challenge
      rw [List.countP_append, h0]
      simp

/-- C3 witness: on the fixture database the unknown-merchant request takes
the challenge branch — a PENDING challenge row with the supplied fresh id is
created, unique, and echoed in the CHALLENGE_REQUIRED response. -/
theorem C3_witness :
    ∃ db2 resp,
      payment_authorize dbAuth "s1" payloadW [] (fun _ => none) "uuid-1" "t2" =
        .ok (db2, resp) ∧
      db2.challenges = dbAuth.challenges ++
        [⟨"uuid-1", "s1", "PASSKEY", "PENDING", "t2", none⟩] ∧
      db2.challenges.countP (fun ch => ch.challenge_id == "uuid-1") = 1 ∧
      resp.status = "CHALLENGE_REQUIRED" ∧
      resp.challenge_id = some "uuid-1" := by
  obtain ⟨db2, resp, heq, _, hneg⟩ :=
    C3_authorize_persistence dbAuth "s1" payloadW [] (fun _ => none) "uuid-1"
      "t2" ⟨"s1", "a1", "t1"⟩ cardW rfl rfl (by simp [dbAuth])
  have hd : (score_purchase (purchaseOfPayload payloadW)
      (extract_personalization (fun _ => none) []) 50).decision ≠ "APPROVE" := by
    decide
  have hm : (score_purchase (purchaseOfPayload payloadW)
      (extract_personalization (fun _ => none) []) 50).challenge_method =
      "PASSKEY" := by decide
  obtain ⟨_, hch, hcount, _, hst, hcid⟩ := hneg hd
  rw [hm] at hch
  exact ⟨db2, resp, heq, hch, hcount, hst, hcid⟩

/-- C4: resolving a challenge — an unknown challenge id, or one belonging
to a different session, is a 404 not-found failure; a normalized action
outside APPROVE/DENY is a 400 validation failure; DENY updates the
challenge to DENIED and returns DENIED; APPROVE updates it to COMPLETED and
returns COMPLETED; and no PENDING check is made: whatever status a matching
row currently has, resolution unconditionally overwrites its status and
resolved_at. -/
theorem C4_challenge_resolution (db : DBState) (session_id : String)
    (payload : ChallengeVerifyRequest) (now : String) (session : SessionRow)
    (hs : get_session db session_id = some session) :
    ((∀ ch ∈ db.challenges,
        ¬(ch.session_id = session_id ∧ ch.challenge_id = payload.challenge_id)) →
      payment_challenge_verify db session_id payload now =
        .error ⟨404, "Challenge not found"⟩) ∧
    (∀ ch, get_challenge db session_id payload.challenge_id = some ch →
      ((strUpper (strTrim payload.action) ≠ "APPROVE" ∧
          strUpper (strTrim payload.action) ≠ "DENY") →
        payment_challenge_verify db session_id payload now =
          .error ⟨400, "action must be APPROVE or DENY"⟩) ∧
      (strUpper (strTrim payload.action) = "DENY" →
        payment_challenge_verify db session_id payload now =
          .ok (resolve_challenge db payload.challenge_id session_id "DENIED" now,
            ⟨"DENIED", payload.challenge_id, ch.method,
              "User denied the challenge."⟩)) ∧
      (strUpper (strTrim payload.action) = "APPROVE" →
        payment_challenge_verify db session_id payload now =
          .ok (resolve_challenge db payload.challenge_id session_id "COMPLETED"
              now,
            ⟨"COMPLETED", payload.challenge_id, ch.method,
              "Challenge approved. Payment completed."⟩))) ∧
    (∀ newStatus : String, ∀ ch ∈ db.challenges,
      ch.challenge_id = payload.challenge_id → ch.session_id = session_id →
      { ch with status := newStatus, resolved_at := some now } ∈
        (resolve_challenge db payload.challenge_id session_id newStatus
          now).challenges) := by
  refine ⟨?_, ?_, ?_⟩
  · intro hnf
    have hnone : get_challenge db session_id payload.challenge_id = none := by
      unfold get_challenge
      rw [List.find?_eq_none]
      intro ch hch
      simp only [Bool.and_eq_true, beq_iff_eq]
      exact fun hcontra => hnf ch hch hcontra
    simp [payment_challenge_verify, hs, hnone]
  · intro ch hch
    refine ⟨fun hinv => ?_, fun hdeny => ?_, fun happr => ?_⟩
    · simp [payment_challenge_verify, hs, hch, hinv.1, hinv.2]
    · simp [payment_challenge_verify, hs, hch, hdeny]
    · simp [payment_challenge_verify, hs, hch, happr]
  · intro newStatus ch hmem hcid hsid
    unfold resolve_challenge
    refine List.mem_map.mpr ⟨ch, hmem, ?_⟩
    simp [hcid, hsid]

/-- C4 witness: on the fixture database, DENY-resolving the already
COMPLETED challenge succeeds with a 200 DENIED response, and the row is
unconditionally rewritten to DENIED with a fresh resolved_at — no
PENDING-state check intervenes. -/
theorem C4_witness :
    payment_challenge_verify dbVerify "s1" ⟨"c1", "DENY"⟩ "t2" =
      .ok (resolve_challenge dbVerify "c1" "s1" "DENIED" "t2",
        ⟨"DENIED", "c1", "PASSKEY", "User denied the challenge."⟩) ∧
    (⟨"c1", "s1", "PASSKEY", "DENIED", "t0", some "t2"⟩ : ChallengeRow) ∈
      (resolve_challenge dbVerify "c1" "s1" "DENIED" "t2").challenges := by
  have h := C4_challenge_resolution dbVerify "s1" ⟨"c1", "DENY"⟩ "t2"
    ⟨"s1", "a1", "t1"⟩ rfl
  exact ⟨(h.2.1 ⟨"c1", "s1", "PASSKEY", "COMPLETED", "t0", some "t0"⟩ rfl).2.1
      rfl,
    h.2.2 "DENIED" ⟨"c1", "s1", "PASSKEY", "COMPLETED", "t0", some "t0"⟩
      (List.mem_singleton.mpr rfl) rfl rfl⟩

/-- C10: the challenge resolver normalizes the action string by trimming
whitespace and upper-casing before validating it, so any spelling whose
normalization is APPROVE or DENY (such as "approve", " deny ", "Approve")
is treated exactly like the normalized action. -/
theorem C10_action_normalized (db : DBState)
    (session_id challenge_id action now : String)
    (h : strUpper (strTrim action) = "APPROVE" ∨
      strUpper (strTrim action) = "DENY") :
    payment_challenge_verify db session_id ⟨challenge_id, action⟩ now =
      payment_challenge_verify db session_id
        ⟨challenge_id, strUpper (strTrim action)⟩ now := by
  have hidem : strUpper (strTrim (strUpper (strTrim action))) =
      strUpper (strTrim action) := by
    rcases h with h | h <;> rw [h] <;> decide
  simp only [payment_challenge_verify]
  rw [hidem]

/-- C10 witness: " deny " is accepted and treated exactly like its
normalization "DENY". -/
theorem C10_witness :
    payment_challenge_verify dbVerify "s1" ⟨"c1", " deny "⟩ "t3" =
      payment_challenge_verify dbVerify "s1"
        ⟨"c1", strUpper (strTrim " deny ")⟩ "t3" :=
  C10_action_normalized dbVerify "s1" "c1" " deny " "t3" (Or.inr (by decide))

/-- C9 witness: on the overlapping profile the highest tagged tier wins. -/
theorem C9_witness :
    _merchant_tier "shop" profileOverlap = "HIGH" ∧
    _merchant_tier "cafe" profileOverlap = "MEDIUM" ∧
    _merchant_tier "bar" profileOverlap = "LOW" :=
  ⟨(C9_tier_priority profileOverlap "shop").1 (by decide),
   (C9_tier_priority profileOverlap "cafe").2.1 (by decide) (by decide),
   (C9_tier_priority profileOverlap "bar").2.2 (by decide) (by decide)⟩

end KingsHacks
